import Mathlib

/-!
Verification of the Standardized Reference ET Engine
(`src/etmodels/ssebop/refetgee/daily.py`) against its specification.

The engine is shallowly embedded over an arbitrary linear ordered field `α`
standing for the elementwise numeric values of Earth Engine images (the field
abstraction of the spec).  Image metadata operations (`rename`,
`set('system:time_start', ...)`) do not change the numeric value of an image
and are omitted from the value-level embedding.

The `calcs` module (`refetgee/calcs.py`) is part of the repository but is not
among the available source files; its functions enter the embedding as
parameters of a `CalcsEnv` record (so every theorem holds for every
implementation of the physics formulas), except for the vapor pressure
deficit, which the claims depend on and which is modelled from the spec below.

Python object state (`self`) is made explicit: every output accessor maps an
engine state to a pair of the produced value and the successor state,
mirroring the `lazy_property` decorator's cache-on-first-access behaviour.
Ghost `count_*` fields instrument the states with the number of times each
underlying computation ran; they correspond to the spec's call-count probe
and are touched exactly where the Python decorator invokes `fn(self)`.
-/

namespace RefetGee

/-- Errors raised by the engine: Python `ValueError` carrying a message.
The spec names the construction-time failures `InvalidConfiguration` and the
`etsz` failure `UnsupportedSurfaceType`; in the source both are `ValueError`s
distinguished by their message. -/
inductive RefetError where
  | valueError (msg : String)
deriving DecidableEq, Repr

/-- Python `str.lower` restricted to ASCII, as applied to the ASCII
configuration strings of the engine. -/
def lower (s : String) : String := ⟨s.data.map Char.toLower⟩

/-- Python `str.upper` restricted to ASCII (used by the `rtma` adapter). -/
def upper (s : String) : String := ⟨s.data.map Char.toUpper⟩

/-- Modelled from the spec: `calcs._vpd` (file `refetgee/calcs.py`, not among
the available sources): "`vpd = max(es - ea, 0)`". -/
def vpdCalc {α : Type} [LinearOrderedField α] (es ea : α) : α := max (es - ea) 0

/-- The functions of the `calcs` module (`refetgee/calcs.py`, not among the
available sources) together with the two numeric primitives the engine uses
that a plain field does not provide (`** 0.5` and the constant
`math.pi / 180`).  Each field keeps the argument list of its Python
counterpart, including the `method` string where the source passes it. -/
structure CalcsEnv (α : Type) where
  air_pressure : α → String → α
  es_slope : α → String → α
  sat_vapor_pressure : α → α
  ra_daily : α → α → String → α
  rso_simple : α → α → α
  rso_daily : α → α → α → α → α → α
  fcd_daily : α → α → α
  rnl_daily : α → α → α → α → α
  rn : α → α → α
  wind_height_adjust : α → α → α
  sqrtF : α → α
  piDiv180 : α

/-- The state of a `Daily` engine instance.  The first two blocks are set in
`__init__` and never written again; `cn`/`cd` do not exist until `eto`/`etr`
first writes them; the `lazy_*` fields are the `_lazy_<name>` attributes the
decorator installs; the `count_*` fields are ghost instrumentation counting
runs of each decorated body. -/
structure Daily (α : Type) where
  env : CalcsEnv α
  tmax : α
  tmin : α
  ea : α
  rs : α
  uz : α
  zw : α
  elev : α
  lat : α
  doy : α
  pair : α
  psy : α
  tmean : α
  es_slope : α
  es : α
  vpd : α
  ra : α
  rso : Option α
  fcd : α
  rnl : α
  rn : α
  u2 : α
  cn : Option α
  cd : Option α
  lazy_eto : Option α
  lazy_etr : Option α
  lazy_etw : Option α
  lazy_eto_fs1 : Option α
  lazy_eto_fs2 : Option α
  lazy_pet_hargreaves : Option α
  count_eto : Nat
  count_etr : Nat
  count_etw : Nat
  count_eto_fs1 : Nat
  count_eto_fs2 : Nat
  count_pet_hargreaves : Nat

variable {α : Type} [LinearOrderedField α]

/-- The body of `Daily.__init__` after validation (lines 115-188): latitude
converted to radians once, the derived-quantity cascade computed eagerly, and
the clear-sky radiation selected from `rso_type`/`method`.  In the source an
`rso_type='array'` construction with no `rso` stores `None`; any later use of
that value happens inside the deferred Earth Engine graph, outside this
embedding, so downstream quantities default it to `0` here (no theorem
evaluates them in that configuration). -/
def mkDaily (env : CalcsEnv α) (tmax tmin ea rs uz zw elev lat doy : α)
    (method : String) (rso_type : Option String) (rso : Option α) : Daily α :=
  let lat' := lat * env.piDiv180
  let pair := env.air_pressure elev method
  let psy := pair * (665 / 1000000)
  let tmean := (tmax + tmin) * (1 / 2)
  let es_slope := env.es_slope tmean method
  let es := (env.sat_vapor_pressure tmax + env.sat_vapor_pressure tmin) * (1 / 2)
  let vpd := vpdCalc es ea
  let ra := env.ra_daily lat' doy method
  let rsoSel : Option α :=
    match rso_type with
    | none =>
      if lower method = "asce" then some (env.rso_simple ra elev)
      else if lower method = "refet" then some (env.rso_daily ea ra pair doy lat')
      else none
    | some rt =>
      if lower rt = "simple" then some (env.rso_simple ra elev)
      else if lower rt = "full" then some (env.rso_daily ea ra pair doy lat')
      else if lower rt = "array" then rso
      else none
  let fcd := env.fcd_daily rs (rsoSel.getD 0)
  let rnl := env.rnl_daily tmax tmin ea fcd
  { env := env
    tmax := tmax, tmin := tmin, ea := ea, rs := rs, uz := uz, zw := zw
    elev := elev, lat := lat', doy := doy
    pair := pair, psy := psy, tmean := tmean, es_slope := es_slope
    es := es, vpd := vpd, ra := ra, rso := rsoSel
    fcd := fcd, rnl := rnl, rn := env.rn rs rnl
    u2 := env.wind_height_adjust uz zw
    cn := none, cd := none
    lazy_eto := none, lazy_etr := none, lazy_etw := none
    lazy_eto_fs1 := none, lazy_eto_fs2 := none, lazy_pet_hargreaves := none
    count_eto := 0, count_etr := 0, count_etw := 0
    count_eto_fs1 := 0, count_eto_fs2 := 0, count_pet_hargreaves := 0 }

/-- `Daily.__init__` (lines 104-113): `method` is validated first, then
`rso_type`; the `'array'` branch of the validation is a `pass` (the presence
of `rso` is not checked).  Only after validation is any state computed. -/
def dailyInit (env : CalcsEnv α) (tmax tmin ea rs uz zw elev lat doy : α)
    (method : String) (rso_type : Option String) (rso : Option α) :
    Except RefetError (Daily α) :=
  if lower method ∈ ["asce", "refet"] then
    match rso_type with
    | none =>
      .ok (mkDaily env tmax tmin ea rs uz zw elev lat doy method none rso)
    | some rt =>
      if lower rt ∈ ["simple", "full", "array"] then
        .ok (mkDaily env tmax tmin ea rs uz zw elev lat doy method (some rt) rso)
      else
        .error (.valueError "rso_type must be None, \"simple\", \"full\", or \"array")
  else
    .error (.valueError "method must be \"asce\" or \"refet\"")

/-- `Daily._etsz` (lines 228-248, Eq. 1), reading the `cn`/`cd` the caller
just stored (they are always set before this runs; `getD 0` is never
exercised by the accessors below). -/
def Daily.etszCore (d : Daily α) : α :=
  ((d.tmean + 273)⁻¹ * d.u2 * d.vpd * d.cn.getD 0 * d.psy
      + d.es_slope * d.rn * (408 / 1000))
    / ((d.u2 * d.cd.getD 0 + 1) * d.psy + d.es_slope)

/-- `Daily.eto` (lines 210-217): lazily cached; on a cache miss stores
`cn = 900`, `cd = 0.34` on the instance and evaluates `_etsz`. -/
def Daily.eto (d : Daily α) : α × Daily α :=
  match d.lazy_eto with
  | some v => (v, d)
  | none =>
    let d1 := { d with cn := some 900, cd := some (34 / 100),
                       count_eto := d.count_eto + 1 }
    let v := d1.etszCore
    (v, { d1 with lazy_eto := some v })

/-- `Daily.etr` (lines 219-226): lazily cached; on a cache miss stores
`cn = 1600`, `cd = 0.38` on the instance and evaluates `_etsz`. -/
def Daily.etr (d : Daily α) : α × Daily α :=
  match d.lazy_etr with
  | some v => (v, d)
  | none =>
    let d1 := { d with cn := some 1600, cd := some (38 / 100),
                       count_etr := d.count_etr + 1 }
    let v := d1.etszCore
    (v, { d1 with lazy_etr := some v })

/-- The expression body of `Daily.etw` (lines 257-283), `alpha = 1.26`. -/
def Daily.etwCore (d : Daily α) : α :=
  (126 / 100) * d.es_slope * d.rn * 1000 / (2453 * (d.es_slope + d.psy))

/-- `Daily.etw`: lazily cached Priestley-Taylor estimate. -/
def Daily.etw (d : Daily α) : α × Daily α :=
  match d.lazy_etw with
  | some v => (v, d)
  | none =>
    let d1 := { d with count_etw := d.count_etw + 1 }
    let v := d1.etwCore
    (v, { d1 with lazy_etw := some v })

/-- The expression body of `Daily.eto_fs1` (lines 290-311). -/
def Daily.etoFs1Core (d : Daily α) : α :=
  (d.es_slope / (d.es_slope + d.psy * (1 + (34 / 100) * d.u2)))
    * ((408 / 1000) * d.rn)

/-- `Daily.eto_fs1`: lazily cached FS1 radiation term. -/
def Daily.eto_fs1 (d : Daily α) : α × Daily α :=
  match d.lazy_eto_fs1 with
  | some v => (v, d)
  | none =>
    let d1 := { d with count_eto_fs1 := d.count_eto_fs1 + 1 }
    let v := d1.etoFs1Core
    (v, { d1 with lazy_eto_fs1 := some v })

/-- The expression body of `Daily.eto_fs2` (lines 317-347): temperature term
`TT` (Eq. 14), psi term `PT` (Eq. 13), result `PT * TT * (es - ea)`. -/
def Daily.etoFs2Core (d : Daily α) : α :=
  let tt := (900 / (d.tmean + 273)) * d.u2
  let pt := d.psy / (d.es_slope + d.psy * (1 + (34 / 100) * d.u2))
  pt * tt * (d.es - d.ea)

/-- `Daily.eto_fs2`: lazily cached FS2 wind term. -/
def Daily.eto_fs2 (d : Daily α) : α × Daily α :=
  match d.lazy_eto_fs2 with
  | some v => (v, d)
  | none =>
    let d1 := { d with count_eto_fs2 := d.count_eto_fs2 + 1 }
    let v := d1.etoFs2Core
    (v, { d1 with lazy_eto_fs2 := some v })

/-- The expression body of `Daily.pet_hargreaves` (lines 354-385); the
`** 0.5` of the source is the `sqrtF` primitive of the environment. -/
def Daily.petHargreavesCore (d : Daily α) : α :=
  (23 / 10000) * (d.tmean + (178 / 10)) * d.env.sqrtF (d.tmax - d.tmin)
    * (408 / 1000) * d.ra

/-- `Daily.pet_hargreaves`: lazily cached Hargreaves estimate. -/
def Daily.pet_hargreaves (d : Daily α) : α × Daily α :=
  match d.lazy_pet_hargreaves with
  | some v => (v, d)
  | none =>
    let d1 := { d with count_pet_hargreaves := d.count_pet_hargreaves + 1 }
    let v := d1.petHargreavesCore
    (v, { d1 with lazy_pet_hargreaves := some v })

/-- `Daily.etsz` (lines 190-208): case-insensitive dispatch on the surface
name, raising `ValueError` on an unrecognized surface. -/
def Daily.etsz (d : Daily α) (surface : String) :
    Except RefetError (α × Daily α) :=
  if lower surface ∈ ["alfalfa", "etr", "tall"] then .ok d.etr
  else if lower surface ∈ ["grass", "eto", "short"] then .ok d.eto
  else .error (.valueError ("unsupported surface type: " ++ surface))

/-- The dataset values the `rtma` classmethod can fall back to for solar
radiation: the concurrent-day GRIDMET `srad` image (mean W m-2) and the
NLDAS `shortwave_radiation` daily sum. -/
structure RsDatasets (α : Type) where
  gridmet_srad : α
  nldas_sw_sum : α

/-- The forms the `rs` argument of `Daily.rtma` can take: an image, a
number (floats and ints become constant images), a dataset-name string, or
omitted (`None`). -/
inductive RsArg (α : Type) where
  | img (v : α)
  | num (v : α)
  | txt (s : String)
  | omitted
deriving DecidableEq

/-- The `rs` parsing block of `Daily.rtma` (lines 840-861): an image passes
through, a number becomes a constant image, `None` or `"GRIDMET"` selects the
GRIDMET product scaled by 0.0864, `"NLDAS"` selects the NLDAS sum scaled by
0.0036, anything else raises `ValueError("Unsupported Rs input")`. -/
def rtmaRs (ds : RsDatasets α) : RsArg α → Except RefetError α
  | .img v => .ok v
  | .num v => .ok v
  | .omitted => .ok (ds.gridmet_srad * (864 / 10000))
  | .txt s =>
    if upper s = "GRIDMET" then .ok (ds.gridmet_srad * (864 / 10000))
    else if upper s = "NLDAS" then .ok (ds.nldas_sw_sum * (36 / 10000))
    else .error (.valueError "Unsupported Rs input")


/-!
Helper lemmas: inversion of construction, first-access values of the lazy
outputs, and frame lemmas for the construction-time fields.
-/

theorem dailyInit_ok {env : CalcsEnv α} {tmax tmin ea rs uz zw elev lat doy : α}
    {method : String} {rso_type : Option String} {rso : Option α} {d : Daily α}
    (h : dailyInit env tmax tmin ea rs uz zw elev lat doy method rso_type rso = .ok d) :
    d = mkDaily env tmax tmin ea rs uz zw elev lat doy method rso_type rso := by
  cases rso_type with
  | none =>
    unfold dailyInit at h
    split at h
    · exact (Except.ok.inj h).symm
    · exact Except.noConfusion h
  | some rt =>
    unfold dailyInit at h
    split at h
    · dsimp only at h
      split at h
      · exact (Except.ok.inj h).symm
      · exact Except.noConfusion h
    · exact Except.noConfusion h

theorem eto_fst (d : Daily α) (h : d.lazy_eto = none) :
    (d.eto).1 = ((d.tmean + 273)⁻¹ * d.u2 * d.vpd * 900 * d.psy
        + d.es_slope * d.rn * (408 / 1000))
      / ((d.u2 * (34 / 100) + 1) * d.psy + d.es_slope) := by
  simp [Daily.eto, h, Daily.etszCore]

theorem etr_fst (d : Daily α) (h : d.lazy_etr = none) :
    (d.etr).1 = ((d.tmean + 273)⁻¹ * d.u2 * d.vpd * 1600 * d.psy
        + d.es_slope * d.rn * (408 / 1000))
      / ((d.u2 * (38 / 100) + 1) * d.psy + d.es_slope) := by
  simp [Daily.etr, h, Daily.etszCore]

theorem eto_fs1_fst (d : Daily α) (h : d.lazy_eto_fs1 = none) :
    (d.eto_fs1).1 = (d.es_slope / (d.es_slope + d.psy * (1 + (34 / 100) * d.u2)))
      * ((408 / 1000) * d.rn) := by
  simp [Daily.eto_fs1, h, Daily.etoFs1Core]

theorem eto_fs2_fst (d : Daily α) (h : d.lazy_eto_fs2 = none) :
    (d.eto_fs2).1 = (d.psy / (d.es_slope + d.psy * (1 + (34 / 100) * d.u2)))
      * ((900 / (d.tmean + 273)) * d.u2) * (d.es - d.ea) := by
  simp [Daily.eto_fs2, h, Daily.etoFs2Core]

/-- All fields of a `Daily` state that `__init__` sets (inputs, configuration
and the derived-quantity cascade) agree between `d` and `d'`. -/
def sameConstruction (d d' : Daily α) : Prop :=
  d'.env = d.env ∧ d'.tmax = d.tmax ∧ d'.tmin = d.tmin ∧ d'.ea = d.ea ∧ d'.rs = d.rs ∧
  d'.uz = d.uz ∧ d'.zw = d.zw ∧ d'.elev = d.elev ∧ d'.lat = d.lat ∧ d'.doy = d.doy ∧
  d'.pair = d.pair ∧ d'.psy = d.psy ∧ d'.tmean = d.tmean ∧ d'.es_slope = d.es_slope ∧
  d'.es = d.es ∧ d'.vpd = d.vpd ∧ d'.ra = d.ra ∧ d'.rso = d.rso ∧ d'.fcd = d.fcd ∧
  d'.rnl = d.rnl ∧ d'.rn = d.rn ∧ d'.u2 = d.u2

theorem eto_frame (d : Daily α) : sameConstruction d (d.eto).2 := by
  cases hc : d.lazy_eto <;> simp [Daily.eto, hc, sameConstruction]

theorem etr_frame (d : Daily α) : sameConstruction d (d.etr).2 := by
  cases hc : d.lazy_etr <;> simp [Daily.etr, hc, sameConstruction]

theorem etw_frame (d : Daily α) : sameConstruction d (d.etw).2 := by
  cases hc : d.lazy_etw <;> simp [Daily.etw, hc, sameConstruction]

theorem eto_fs1_frame (d : Daily α) : sameConstruction d (d.eto_fs1).2 := by
  cases hc : d.lazy_eto_fs1 <;> simp [Daily.eto_fs1, hc, sameConstruction]

theorem eto_fs2_frame (d : Daily α) : sameConstruction d (d.eto_fs2).2 := by
  cases hc : d.lazy_eto_fs2 <;> simp [Daily.eto_fs2, hc, sameConstruction]

theorem pet_hargreaves_frame (d : Daily α) : sameConstruction d (d.pet_hargreaves).2 := by
  cases hc : d.lazy_pet_hargreaves <;> simp [Daily.pet_hargreaves, hc, sameConstruction]

theorem eto_snd_fields (d : Daily α) :
    (d.eto).2.tmean = d.tmean ∧ (d.eto).2.u2 = d.u2 ∧ (d.eto).2.vpd = d.vpd ∧
    (d.eto).2.psy = d.psy ∧ (d.eto).2.es_slope = d.es_slope ∧ (d.eto).2.rn = d.rn ∧
    (d.eto).2.lazy_etr = d.lazy_etr := by
  cases hc : d.lazy_eto <;> simp [Daily.eto, hc]

theorem etr_snd_fields (d : Daily α) :
    (d.etr).2.tmean = d.tmean ∧ (d.etr).2.u2 = d.u2 ∧ (d.etr).2.vpd = d.vpd ∧
    (d.etr).2.psy = d.psy ∧ (d.etr).2.es_slope = d.es_slope ∧ (d.etr).2.rn = d.rn ∧
    (d.etr).2.lazy_eto = d.lazy_eto := by
  cases hc : d.lazy_etr <;> simp [Daily.etr, hc]

/-- `access` realizes the `lazy_property` contract on state `d`: the cache is
initially empty, the first access computes once (the ghost counter steps from
its initial 0 to 1) and stores the result, and an access on the resulting
state returns the stored value and changes nothing. -/
def lazyOnce (access : Daily α → α × Daily α) (cache : Daily α → Option α)
    (count : Daily α → Nat) (d : Daily α) : Prop :=
  cache d = none ∧ count d = 0 ∧
  cache (access d).2 = some (access d).1 ∧
  count (access d).2 = count d + 1 ∧
  access (access d).2 = ((access d).1, (access d).2)

/-!
Concrete witness fixtures over `ℚ`: an arbitrary nontrivial physics
environment `envW` with inputs `dW`, and an all-zero environment `envZ` with
inputs `dZ` (used where an order hypothesis on derived values is needed).
-/

def envW : CalcsEnv ℚ :=
  { air_pressure := fun e _ => e / 100
    es_slope := fun t _ => t + 2
    sat_vapor_pressure := fun t => t + 3
    ra_daily := fun l d _ => l + d
    rso_simple := fun ra e => ra + e
    rso_daily := fun a b c d e => a + b + c + d + e
    fcd_daily := fun rs rso => rs - rso
    rnl_daily := fun a b c d => a + b + c + d
    rn := fun rs rnl => rs - rnl
    wind_height_adjust := fun uz zw => uz + zw
    sqrtF := fun x => x
    piDiv180 := 1 }

def dW : Daily ℚ := mkDaily envW 30 10 1 20 2 2 100 36 180 "asce" none none

def envZ : CalcsEnv ℚ :=
  { air_pressure := fun _ _ => 0
    es_slope := fun _ _ => 0
    sat_vapor_pressure := fun _ => 0
    ra_daily := fun _ _ _ => 0
    rso_simple := fun _ _ => 0
    rso_daily := fun _ _ _ _ _ => 0
    fcd_daily := fun _ _ => 0
    rnl_daily := fun _ _ _ _ => 0
    rn := fun _ _ => 0
    wind_height_adjust := fun _ _ => 0
    sqrtF := fun _ => 0
    piDiv180 := 0 }

def dZ : Daily ℚ := mkDaily envZ 0 0 0 0 0 0 0 0 0 "asce" none none

/-!
Claim theorems.
-/

/-- C1: for every engine instance constructed with a valid configuration, the
grass-reference output `eto` equals
`[0.408*es_slope*rn + psy*900*u2*vpd/(tmean+273)] / [es_slope + psy*(0.34*u2+1)]`
and the alfalfa-reference output `etr` equals the same expression with
`cn = 1600` and `cd = 0.38`, in the instance's derived quantities. -/
theorem eto_etr_combination_equation (env : CalcsEnv α)
    (tmax tmin ea rs uz zw elev lat doy : α)
    (method : String) (rso_type : Option String) (rso : Option α) (d : Daily α)
    (h : dailyInit env tmax tmin ea rs uz zw elev lat doy method rso_type rso = .ok d) :
    (d.eto).1 = ((408 / 1000) * d.es_slope * d.rn
          + d.psy * 900 * d.u2 * d.vpd / (d.tmean + 273))
        / (d.es_slope + d.psy * ((34 / 100) * d.u2 + 1)) ∧
    (d.etr).1 = ((408 / 1000) * d.es_slope * d.rn
          + d.psy * 1600 * d.u2 * d.vpd / (d.tmean + 273))
        / (d.es_slope + d.psy * ((38 / 100) * d.u2 + 1)) := by
  obtain rfl := dailyInit_ok h
  constructor
  · rw [eto_fst _ rfl]; ring
  · rw [etr_fst _ rfl]; ring

/-- C1 witness: the combination equation, instantiated at the concrete
engine `dW`. -/
theorem eto_etr_combination_equation_witness :
    (dW.eto).1 = ((408 / 1000) * dW.es_slope * dW.rn
          + dW.psy * 900 * dW.u2 * dW.vpd / (dW.tmean + 273))
        / (dW.es_slope + dW.psy * ((34 / 100) * dW.u2 + 1)) ∧
    (dW.etr).1 = ((408 / 1000) * dW.es_slope * dW.rn
          + dW.psy * 1600 * dW.u2 * dW.vpd / (dW.tmean + 273))
        / (dW.es_slope + dW.psy * ((38 / 100) * dW.u2 + 1)) :=
  eto_etr_combination_equation envW 30 10 1 20 2 2 100 36 180 "asce" none none dW rfl

/-- C8: whenever the derived saturation vapor pressure dominates the actual
one (`es ≥ ea`, so the deficit is `es - ea`), the two-term decomposition is
exact: `eto_fs1 + eto_fs2 = eto`. -/
theorem eto_decomposes_into_fs1_fs2 (env : CalcsEnv α)
    (tmax tmin ea rs uz zw elev lat doy : α)
    (method : String) (rso_type : Option String) (rso : Option α) (d : Daily α)
    (h : dailyInit env tmax tmin ea rs uz zw elev lat doy method rso_type rso = .ok d)
    (hle : d.ea ≤ d.es) :
    (d.eto_fs1).1 + (d.eto_fs2).1 = (d.eto).1 := by
  obtain rfl := dailyInit_ok h
  have hv : (mkDaily env tmax tmin ea rs uz zw elev lat doy method rso_type rso).vpd
      = (mkDaily env tmax tmin ea rs uz zw elev lat doy method rso_type rso).es
        - (mkDaily env tmax tmin ea rs uz zw elev lat doy method rso_type rso).ea :=
    max_eq_left (sub_nonneg.2 hle)
  rw [eto_fs1_fst _ rfl, eto_fs2_fst _ rfl, eto_fst _ rfl, hv]
  ring

/-- C8 witness: the decomposition at the concrete engine `dZ`, whose inputs
satisfy `ea ≤ es`. -/
theorem eto_decomposes_into_fs1_fs2_witness :
    dZ.ea ≤ dZ.es ∧ (dZ.eto_fs1).1 + (dZ.eto_fs2).1 = (dZ.eto).1 :=
  ⟨by simp [dZ, mkDaily, envZ],
    eto_decomposes_into_fs1_fs2 envZ 0 0 0 0 0 0 0 0 0 "asce" none none dZ rfl
      (by simp [dZ, mkDaily, envZ])⟩

/-- C10: the pair of values produced by accessing `eto` then `etr` equals
the pair produced by accessing `etr` then `eto`, although each accessor
writes the shared `cn`/`cd` fields (`900`/`0.34` and `1600`/`0.38`
respectively) immediately before its single memoized computation. -/
theorem eto_etr_order_independent (env : CalcsEnv α)
    (tmax tmin ea rs uz zw elev lat doy : α)
    (method : String) (rso_type : Option String) (rso : Option α) (d : Daily α)
    (h : dailyInit env tmax tmin ea rs uz zw elev lat doy method rso_type rso = .ok d) :
    ((d.eto).1, ((d.eto).2.etr).1) = (((d.etr).2.eto).1, (d.etr).1) ∧
    (((d.eto).2).etr).1 = (d.etr).1 ∧ (((d.etr).2).eto).1 = (d.eto).1 ∧
    ((d.eto).2).cn = some 900 ∧ ((d.eto).2).cd = some (34 / 100) ∧
    ((d.etr).2).cn = some 1600 ∧ ((d.etr).2).cd = some (38 / 100) := by
  have hd := dailyInit_ok h
  have hco : d.lazy_eto = none := by rw [hd]; rfl
  have hcr : d.lazy_etr = none := by rw [hd]; rfl
  obtain ⟨a1, a2, a3, a4, a5, a6, a7⟩ := eto_snd_fields d
  obtain ⟨b1, b2, b3, b4, b5, b6, b7⟩ := etr_snd_fields d
  have h1 : (((d.eto).2).etr).1 = (d.etr).1 := by
    rw [etr_fst d hcr, etr_fst _ (a7.trans hcr), a1, a2, a3, a4, a5, a6]
  have h2 : (((d.etr).2).eto).1 = (d.eto).1 := by
    rw [eto_fst d hco, eto_fst _ (b7.trans hco), b1, b2, b3, b4, b5, b6]
  refine ⟨by rw [h1, h2], h1, h2, ?_, ?_, ?_, ?_⟩
  · simp [Daily.eto, hco]
  · simp [Daily.eto, hco]
  · simp [Daily.etr, hcr]
  · simp [Daily.etr, hcr]

/-- C10 witness: order independence of the first accesses at the concrete
engine `dW`. -/
theorem eto_etr_order_independent_witness :
    ((dW.eto).1, ((dW.eto).2.etr).1) = (((dW.etr).2.eto).1, (dW.etr).1) ∧
    (((dW.eto).2).etr).1 = (dW.etr).1 ∧ (((dW.etr).2).eto).1 = (dW.eto).1 ∧
    ((dW.eto).2).cn = some 900 ∧ ((dW.eto).2).cd = some (34 / 100) ∧
    ((dW.etr).2).cn = some 1600 ∧ ((dW.etr).2).cd = some (38 / 100) :=
  eto_etr_order_independent envW 30 10 1 20 2 2 100 36 180 "asce" none none dW rfl

/-- C6: on a freshly constructed engine each of the six lazy outputs has an
empty cache and a zero computation count; its first access computes the value
(count goes to 1), stores it, and a repeated access returns exactly the
stored pair with no state change and no further computation. -/
theorem lazy_outputs_computed_once (env : CalcsEnv α)
    (tmax tmin ea rs uz zw elev lat doy : α)
    (method : String) (rso_type : Option String) (rso : Option α) (d : Daily α)
    (h : dailyInit env tmax tmin ea rs uz zw elev lat doy method rso_type rso = .ok d) :
    lazyOnce Daily.eto (fun e => e.lazy_eto) (fun e => e.count_eto) d ∧
    lazyOnce Daily.etr (fun e => e.lazy_etr) (fun e => e.count_etr) d ∧
    lazyOnce Daily.etw (fun e => e.lazy_etw) (fun e => e.count_etw) d ∧
    lazyOnce Daily.eto_fs1 (fun e => e.lazy_eto_fs1) (fun e => e.count_eto_fs1) d ∧
    lazyOnce Daily.eto_fs2 (fun e => e.lazy_eto_fs2) (fun e => e.count_eto_fs2) d ∧
    lazyOnce Daily.pet_hargreaves (fun e => e.lazy_pet_hargreaves)
      (fun e => e.count_pet_hargreaves) d := by
  obtain rfl := dailyInit_ok h
  refine ⟨⟨rfl, rfl, ?_, ?_, ?_⟩, ⟨rfl, rfl, ?_, ?_, ?_⟩, ⟨rfl, rfl, ?_, ?_, ?_⟩,
    ⟨rfl, rfl, ?_, ?_, ?_⟩, ⟨rfl, rfl, ?_, ?_, ?_⟩, ⟨rfl, rfl, ?_, ?_, ?_⟩⟩ <;> rfl

/-- C6 witness: the memoization contract of all six outputs at the concrete
engine `dW`. -/
theorem lazy_outputs_computed_once_witness :
    lazyOnce Daily.eto (fun e => e.lazy_eto) (fun e => e.count_eto) dW ∧
    lazyOnce Daily.etr (fun e => e.lazy_etr) (fun e => e.count_etr) dW ∧
    lazyOnce Daily.etw (fun e => e.lazy_etw) (fun e => e.count_etw) dW ∧
    lazyOnce Daily.eto_fs1 (fun e => e.lazy_eto_fs1) (fun e => e.count_eto_fs1) dW ∧
    lazyOnce Daily.eto_fs2 (fun e => e.lazy_eto_fs2) (fun e => e.count_eto_fs2) dW ∧
    lazyOnce Daily.pet_hargreaves (fun e => e.lazy_pet_hargreaves)
      (fun e => e.count_pet_hargreaves) dW :=
  lazy_outputs_computed_once envW 30 10 1 20 2 2 100 36 180 "asce" none none dW rfl

/-- C7: no output accessor (the six lazy outputs, nor a successful `etsz`
dispatch) modifies any field the constructor set — inputs, configuration or
derived quantities — and latitude is converted to radians exactly once, at
construction. -/
theorem accessors_preserve_construction_state :
    (∀ e : Daily α, sameConstruction e (e.eto).2) ∧
    (∀ e : Daily α, sameConstruction e (e.etr).2) ∧
    (∀ e : Daily α, sameConstruction e (e.etw).2) ∧
    (∀ e : Daily α, sameConstruction e (e.eto_fs1).2) ∧
    (∀ e : Daily α, sameConstruction e (e.eto_fs2).2) ∧
    (∀ e : Daily α, sameConstruction e (e.pet_hargreaves).2) ∧
    (∀ (e : Daily α) (s : String) (x : α) (e' : Daily α),
      e.etsz s = .ok (x, e') → sameConstruction e e') ∧
    (∀ (env : CalcsEnv α) (tmax tmin ea rs uz zw elev lat doy : α)
      (method : String) (rso_type : Option String) (rso : Option α) (d : Daily α),
      dailyInit env tmax tmin ea rs uz zw elev lat doy method rso_type rso = .ok d →
      d.lat = lat * env.piDiv180) := by
  refine ⟨eto_frame, etr_frame, etw_frame, eto_fs1_frame, eto_fs2_frame,
    pet_hargreaves_frame, ?_, ?_⟩
  · intro e s x e' hok
    unfold Daily.etsz at hok
    split at hok
    · have hxe := Except.ok.inj hok
      have h2 : e' = (e.etr).2 := by rw [hxe]
      rw [h2]; exact etr_frame e
    · split at hok
      · have hxe := Except.ok.inj hok
        have h2 : e' = (e.eto).2 := by rw [hxe]
        rw [h2]; exact eto_frame e
      · exact Except.noConfusion hok
  · intro env tmax tmin ea rs uz zw elev lat doy method rso_type rso d h
    rw [dailyInit_ok h]; rfl

/-- C7 witness: the frame property at the concrete engine `dW`, through a
successful `etsz` dispatch and through the constructor's latitude
conversion. -/
theorem accessors_preserve_construction_state_witness :
    sameConstruction dW ((dW.eto).2) ∧ sameConstruction dW ((dW.etr).2) ∧
    dW.lat = 36 * envW.piDiv180 :=
  ⟨(accessors_preserve_construction_state (α := ℚ)).1 dW,
    (accessors_preserve_construction_state (α := ℚ)).2.2.2.2.2.2.1 dW "tall"
      (dW.etr).1 (dW.etr).2 rfl,
    (accessors_preserve_construction_state (α := ℚ)).2.2.2.2.2.2.2 envW
      30 10 1 20 2 2 100 36 180 "asce" none none dW rfl⟩

/-- C3: for every engine state and every surface string, `etsz` dispatches to
`etr` on {alfalfa, etr, tall}, to `eto` on {grass, eto, short} (both
case-insensitively, returning exactly the pair a direct access produces —
in particular the identical cached value), and fails with the unsupported
surface `ValueError` on every other string. -/
theorem etsz_dispatch (d : Daily α) (surface : String) :
    (lower surface ∈ ["alfalfa", "etr", "tall"] → d.etsz surface = .ok d.etr) ∧
    (lower surface ∈ ["grass", "eto", "short"] → d.etsz surface = .ok d.eto) ∧
    (lower surface ∉ ["alfalfa", "etr", "tall"] →
      lower surface ∉ ["grass", "eto", "short"] →
      d.etsz surface = .error
        (.valueError ("unsupported surface type: " ++ surface))) := by
  refine ⟨fun h1 => ?_, fun h2 => ?_, fun h1 h2 => ?_⟩
  · unfold Daily.etsz; rw [if_pos h1]
  · have h1 : lower surface ∉ ["alfalfa", "etr", "tall"] := by
      intro hx
      simp only [List.mem_cons, List.not_mem_nil, or_false] at h2 hx
      rcases h2 with h | h | h <;> rcases hx with h' | h' | h' <;>
        exact absurd (h.symm.trans h') (by decide)
    unfold Daily.etsz; rw [if_neg h1, if_pos h2]
  · unfold Daily.etsz; rw [if_neg h1, if_neg h2]

/-- C3 witness: the three dispatch outcomes at the concrete engine `dW`. -/
theorem etsz_dispatch_witness :
    dW.etsz "TALL" = .ok dW.etr ∧ dW.etsz "Grass" = .ok dW.eto ∧
    dW.etsz "unknown" = .error
      (.valueError ("unsupported surface type: " ++ "unknown")) :=
  ⟨(etsz_dispatch dW "TALL").1 (by decide),
   (etsz_dispatch dW "Grass").2.1 (by decide),
   (etsz_dispatch dW "unknown").2.2 (by decide) (by decide)⟩

/-- C4: construction fails with the configuration `ValueError` whenever the
lowercased `method` is not asce/refet, and whenever a provided `rso_type`
lowercases to none of simple/full/array; the failure happens before any input
field is read or derived quantity computed — the error is one fixed value,
independent of every numeric input — and recognized values are accepted in
any letter case. -/
theorem init_validates (env : CalcsEnv α) (tmax tmin ea rs uz zw elev lat doy : α)
    (method rt : String) (rso_type : Option String) (rso : Option α) :
    (lower method ∉ ["asce", "refet"] →
      dailyInit env tmax tmin ea rs uz zw elev lat doy method rso_type rso
        = .error (.valueError "method must be \"asce\" or \"refet\"")) ∧
    (lower method ∈ ["asce", "refet"] → lower rt ∉ ["simple", "full", "array"] →
      dailyInit env tmax tmin ea rs uz zw elev lat doy method (some rt) rso
        = .error (.valueError
            "rso_type must be None, \"simple\", \"full\", or \"array")) ∧
    (lower method ∈ ["asce", "refet"] →
      dailyInit env tmax tmin ea rs uz zw elev lat doy method none rso
        = .ok (mkDaily env tmax tmin ea rs uz zw elev lat doy method none rso)) ∧
    (lower method ∈ ["asce", "refet"] → lower rt ∈ ["simple", "full", "array"] →
      dailyInit env tmax tmin ea rs uz zw elev lat doy method (some rt) rso
        = .ok (mkDaily env tmax tmin ea rs uz zw elev lat doy method (some rt) rso)) := by
  refine ⟨fun hm => ?_, fun hm hr => ?_, fun hm => ?_, fun hm hr => ?_⟩
  · unfold dailyInit; rw [if_neg hm]
  · unfold dailyInit; rw [if_pos hm]; dsimp only; rw [if_neg hr]
  · unfold dailyInit; rw [if_pos hm]
  · unfold dailyInit; rw [if_pos hm]; dsimp only; rw [if_pos hr]

/-- C4 witness: a rejected method, a rejected `rso_type`, and mixed-case
accepted configurations, at concrete inputs. -/
theorem init_validates_witness :
    dailyInit envW 30 10 1 20 2 2 100 36 180 "BoGuS" (some "full") none
      = .error (.valueError "method must be \"asce\" or \"refet\"") ∧
    dailyInit envW 30 10 1 20 2 2 100 36 180 "ASCE" (some "basic") none
      = .error (.valueError
          "rso_type must be None, \"simple\", \"full\", or \"array") ∧
    dailyInit envW 30 10 1 20 2 2 100 36 180 "ReFeT" none none
      = .ok (mkDaily envW 30 10 1 20 2 2 100 36 180 "ReFeT" none none) ∧
    dailyInit envW 30 10 1 20 2 2 100 36 180 "asce" (some "FULL") none
      = .ok (mkDaily envW 30 10 1 20 2 2 100 36 180 "asce" (some "FULL") none) :=
  ⟨(init_validates envW 30 10 1 20 2 2 100 36 180 "BoGuS" "x" (some "full") none).1
      (by decide),
   (init_validates envW 30 10 1 20 2 2 100 36 180 "ASCE" "basic" none none).2.1
      (by decide) (by decide),
   (init_validates envW 30 10 1 20 2 2 100 36 180 "ReFeT" "x" none none).2.2.1
      (by decide),
   (init_validates envW 30 10 1 20 2 2 100 36 180 "asce" "FULL" none none).2.2.2
      (by decide) (by decide)⟩

/-- C5: the clear-sky radiation of a validly constructed engine is the simple
model (applied to the instance's `ra` and `elev`) when `rso_type` is unset
with method asce, the full model (applied to `ea`, `ra`, `pair`, `doy`,
`lat`) when unset with method refet, the respective model when `rso_type`
says simple/full regardless of method, and the caller-supplied `rso` field
when `rso_type` says array. -/
theorem rso_model_selection (env : CalcsEnv α) (tmax tmin ea rs uz zw elev lat doy : α)
    (method rt : String) (rso : Option α) :
    (∀ d : Daily α, lower method = "asce" →
      dailyInit env tmax tmin ea rs uz zw elev lat doy method none rso = .ok d →
      d.rso = some (env.rso_simple d.ra d.elev)) ∧
    (∀ d : Daily α, lower method = "refet" →
      dailyInit env tmax tmin ea rs uz zw elev lat doy method none rso = .ok d →
      d.rso = some (env.rso_daily d.ea d.ra d.pair d.doy d.lat)) ∧
    (∀ d : Daily α, lower rt = "simple" →
      dailyInit env tmax tmin ea rs uz zw elev lat doy method (some rt) rso = .ok d →
      d.rso = some (env.rso_simple d.ra d.elev)) ∧
    (∀ d : Daily α, lower rt = "full" →
      dailyInit env tmax tmin ea rs uz zw elev lat doy method (some rt) rso = .ok d →
      d.rso = some (env.rso_daily d.ea d.ra d.pair d.doy d.lat)) ∧
    (∀ d : Daily α, lower rt = "array" →
      dailyInit env tmax tmin ea rs uz zw elev lat doy method (some rt) rso = .ok d →
      d.rso = rso) := by
  refine ⟨fun d hc h => ?_, fun d hc h => ?_, fun d hc h => ?_, fun d hc h => ?_,
    fun d hc h => ?_⟩ <;> obtain rfl := dailyInit_ok h <;> simp [mkDaily, hc]

/-- Concrete engines exercising the five clear-sky selection cases. -/
def dA : Daily ℚ := mkDaily envW 30 10 1 20 2 2 100 36 180 "ASCE" none none

def dR : Daily ℚ := mkDaily envW 30 10 1 20 2 2 100 36 180 "refet" none none

def dS : Daily ℚ := mkDaily envW 30 10 1 20 2 2 100 36 180 "asce" (some "Simple") none

def dF : Daily ℚ := mkDaily envW 30 10 1 20 2 2 100 36 180 "asce" (some "FULL") none

def dArr : Daily ℚ := mkDaily envW 30 10 1 20 2 2 100 36 180 "asce" (some "array") (some 9)

/-- C5 witness: the five selection cases at concrete engines. -/
theorem rso_model_selection_witness :
    dA.rso = some (envW.rso_simple dA.ra dA.elev) ∧
    dR.rso = some (envW.rso_daily dR.ea dR.ra dR.pair dR.doy dR.lat) ∧
    dS.rso = some (envW.rso_simple dS.ra dS.elev) ∧
    dF.rso = some (envW.rso_daily dF.ea dF.ra dF.pair dF.doy dF.lat) ∧
    dArr.rso = some 9 :=
  ⟨(rso_model_selection envW 30 10 1 20 2 2 100 36 180 "ASCE" "x" none).1 dA
      (by decide) rfl,
   (rso_model_selection envW 30 10 1 20 2 2 100 36 180 "refet" "x" none).2.1 dR
      (by decide) rfl,
   (rso_model_selection envW 30 10 1 20 2 2 100 36 180 "asce" "Simple" none).2.2.1 dS
      (by decide) rfl,
   (rso_model_selection envW 30 10 1 20 2 2 100 36 180 "asce" "FULL" none).2.2.2.1 dF
      (by decide) rfl,
   (rso_model_selection envW 30 10 1 20 2 2 100 36 180 "asce" "array" (some 9)).2.2.2.2
      dArr (by decide) rfl⟩

/-- C2 counterexample: constructing with `rso_type = "array"` and no `rso`
does not fail — `dailyInit` succeeds and the instance's `rso` field is the
absent `None`, because the validation's array branch is a `pass`. -/
theorem array_without_rso_accepted_counterexample :
    ∃ d : Daily ℚ,
      dailyInit envW 30 10 1 20 2 2 100 36 180 "asce" (some "array") none = .ok d ∧
      d.rso = none :=
  ⟨mkDaily envW 30 10 1 20 2 2 100 36 180 "asce" (some "array") none, rfl, rfl⟩

/-- C2 amended: constructing with `rso_type = "array"` (any letter case) and
no supplied `rso` is accepted — construction succeeds without any
configuration error and the instance's clear-sky radiation field is left
absent (`None`), unvalidated. -/
theorem array_rso_type_accepts_missing_rso (env : CalcsEnv α)
    (tmax tmin ea rs uz zw elev lat doy : α) (method rt : String)
    (hm : lower method ∈ ["asce", "refet"]) (hr : lower rt = "array") :
    dailyInit env tmax tmin ea rs uz zw elev lat doy method (some rt) none
      = .ok (mkDaily env tmax tmin ea rs uz zw elev lat doy method (some rt) none) ∧
    (mkDaily env tmax tmin ea rs uz zw elev lat doy method (some rt) none).rso
      = none := by
  constructor
  · unfold dailyInit
    rw [if_pos hm]; dsimp only
    rw [if_pos (show lower rt ∈ ["simple", "full", "array"] by rw [hr]; decide)]
  · simp [mkDaily, hr]

/-- C2 amended witness: mixed-case `array` with no `rso`, at concrete
inputs. -/
theorem array_rso_type_accepts_missing_rso_witness :
    dailyInit envW 30 10 1 20 2 2 100 36 180 "Asce" (some "ARRAY") none
      = .ok (mkDaily envW 30 10 1 20 2 2 100 36 180 "Asce" (some "ARRAY") none) ∧
    (mkDaily envW 30 10 1 20 2 2 100 36 180 "Asce" (some "ARRAY") none).rso = none :=
  array_rso_type_accepts_missing_rso envW 30 10 1 20 2 2 100 36 180 "Asce" "ARRAY"
    (by decide) (by decide)

/-- Concrete dataset values for the `rtma` solar-radiation fallback. -/
def dsW : RsDatasets ℚ := ⟨5, 7⟩

/-- C9 counterexample: the `rtma` adapter does not treat an omitted solar
radiation input as an error — it silently falls back to the concurrent-day
GRIDMET product (scaled by 0.0864). -/
theorem rtma_omitted_rs_not_an_error_counterexample :
    rtmaRs dsW RsArg.omitted = .ok (dsW.gridmet_srad * (864 / 10000)) := rfl

/-- The humidity formula the adapters use from the `calcs` module
(`calcs._actual_vapor_pressure(q, pair)`; `refetgee/calcs.py` is not among
the available sources), entering the embedding as a parameter. -/
structure AdapterCalcs (α : Type) where
  actual_vapor_pressure : α → α → α

/-- The ancillary assets each adapter loads when the caller omits an
override: per-family elevation and latitude images.  For gridmet/maca the
latitude default is the gridmet elevation image times zero plus the
`pixelLonLat` latitude (value-wise the latitude); for cfsv2 it is the SRTM
elevation and the `pixelLonLat` latitude reprojected to the CFSv2 grid. -/
structure AdapterAssets (α : Type) where
  gridmet_elev : α
  gridmet_lat : α
  nldas_elev : α
  nldas_lat : α
  cfsv2_elev : α
  cfsv2_lat : α
  rtma_elev : α
  rtma_lat : α
  era5_elev : α
  era5_lat : α
  era5land_elev : α
  era5land_lat : α

/-- The bands `Daily.gridmet` selects from its input image. -/
structure GridmetImage (α : Type) where
  tmmx : α
  tmmn : α
  sph : α
  srad : α
  vs : α

/-- The bands `Daily.maca` selects from its input image. -/
structure MacaImage (α : Type) where
  tasmax : α
  tasmin : α
  huss : α
  rsds : α
  uas : α
  vas : α

/-- The per-day reductions `Daily.nldas` takes over its hourly collection:
temperature max/min, mean specific humidity, summed shortwave radiation, and
the mean of the hourly wind-vector magnitudes. -/
structure NldasDay (α : Type) where
  temp_max : α
  temp_min : α
  sph_mean : α
  sw_sum : α
  wind_mean : α

/-- The per-day reductions `Daily.cfsv2` takes over its 6-hourly
collection. -/
structure Cfsv2Day (α : Type) where
  tmax_max : α
  tmin_min : α
  sph_mean : α
  sw_mean : α
  wind_mean : α

/-- The per-day reductions `Daily.rtma` takes over its hourly collection
(RTMA provides a wind speed band directly; temperatures are already in C). -/
structure RtmaDay (α : Type) where
  tmp_max : α
  tmp_min : α
  sph_mean : α
  wind_mean : α

/-- The per-day reductions the three ERA5-family adapters take over their
hourly collections; the three differ only in the name of the summed solar
band they select. -/
structure Era5Day (α : Type) where
  temp_max : α
  temp_min : α
  dew_mean : α
  ssrd_sum : α
  wind_mean : α

/-- `Daily.gridmet` (lines 387-466): `zw` defaults to 10, `elev`/`lat` to the
GRIDMET ancillary images; temperatures K to C, solar W m-2 to MJ m-2 day-1,
`ea` from specific humidity and elevation-derived pressure.  `doy` is date
arithmetic on the image timestamp, received here as a value. -/
def gridmetAdapter (env : CalcsEnv α) (ac : AdapterCalcs α) (assets : AdapterAssets α)
    (img : GridmetImage α) (doy : α) (zw elev lat : Option α)
    (method : String) (rso_type : Option String) : Except RefetError (Daily α) :=
  let zw' := zw.getD 10
  let elev' := elev.getD assets.gridmet_elev
  let lat' := lat.getD assets.gridmet_lat
  dailyInit env (img.tmmx - 27315 / 100) (img.tmmn - 27315 / 100)
    (ac.actual_vapor_pressure img.sph (env.air_pressure elev' method))
    (img.srad * (864 / 10000)) img.vs zw' elev' lat' doy method rso_type none

/-- `Daily.maca` (lines 468-563): defaults as for gridmet (it reuses the
GRIDMET ancillary images); wind is the magnitude of the `uas`/`vas`
components. -/
def macaAdapter (env : CalcsEnv α) (ac : AdapterCalcs α) (assets : AdapterAssets α)
    (img : MacaImage α) (doy : α) (zw elev lat : Option α)
    (method : String) (rso_type : Option String) : Except RefetError (Daily α) :=
  let zw' := zw.getD 10
  let elev' := elev.getD assets.gridmet_elev
  let lat' := lat.getD assets.gridmet_lat
  dailyInit env (img.tasmax - 27315 / 100) (img.tasmin - 27315 / 100)
    (ac.actual_vapor_pressure img.huss (env.air_pressure elev' method))
    (img.rsds * (864 / 10000)) (env.sqrtF (img.uas ^ 2 + img.vas ^ 2))
    zw' elev' lat' doy method rso_type none

/-- `Daily.nldas` (lines 565-664): `zw` defaults to 10, `elev`/`lat` to the
NLDAS ancillary images; temperatures are already in C; solar is the hourly
sum times 0.0036. -/
def nldasAdapter (env : CalcsEnv α) (ac : AdapterCalcs α) (assets : AdapterAssets α)
    (c : NldasDay α) (doy : α) (zw elev lat : Option α)
    (method : String) (rso_type : Option String) : Except RefetError (Daily α) :=
  let zw' := zw.getD 10
  let elev' := elev.getD assets.nldas_elev
  let lat' := lat.getD assets.nldas_lat
  dailyInit env c.temp_max c.temp_min
    (ac.actual_vapor_pressure c.sph_mean (env.air_pressure elev' method))
    (c.sw_sum * (36 / 10000)) c.wind_mean zw' elev' lat' doy method rso_type none

/-- `Daily.cfsv2` (lines 666-787): `zw` defaults to 10, `elev` to SRTM and
`lat` to `pixelLonLat` latitude, both reprojected to the CFSv2 grid;
temperatures K to C; solar is the 6-hourly mean times 0.0864. -/
def cfsv2Adapter (env : CalcsEnv α) (ac : AdapterCalcs α) (assets : AdapterAssets α)
    (c : Cfsv2Day α) (doy : α) (zw elev lat : Option α)
    (method : String) (rso_type : Option String) : Except RefetError (Daily α) :=
  let zw' := zw.getD 10
  let elev' := elev.getD assets.cfsv2_elev
  let lat' := lat.getD assets.cfsv2_lat
  dailyInit env (c.tmax_max - 27315 / 100) (c.tmin_min - 27315 / 100)
    (ac.actual_vapor_pressure c.sph_mean (env.air_pressure elev' method))
    (c.sw_mean * (864 / 10000)) c.wind_mean zw' elev' lat' doy method rso_type none

/-- `Daily.rtma` (lines 789-912): the solar radiation argument is parsed
first (`rtmaRs`, lines 840-861, with its GRIDMET fallback); then `zw`
defaults to 10 and `elev`/`lat` to the RTMA ancillary images. -/
def rtmaAdapter (env : CalcsEnv α) (ac : AdapterCalcs α) (assets : AdapterAssets α)
    (ds : RsDatasets α) (c : RtmaDay α) (doy : α) (rsa : RsArg α)
    (zw elev lat : Option α) (method : String) (rso_type : Option String) :
    Except RefetError (Daily α) :=
  match rtmaRs ds rsa with
  | .error e => .error e
  | .ok rsv =>
    let zw' := zw.getD 10
    let elev' := elev.getD assets.rtma_elev
    let lat' := lat.getD assets.rtma_lat
    dailyInit env c.tmp_max c.tmp_min
      (ac.actual_vapor_pressure c.sph_mean (env.air_pressure elev' method))
      rsv c.wind_mean zw' elev' lat' doy method rso_type none

/-- `Daily.era5` (lines 914-1008): `zw` defaults to 10, `elev`/`lat` to the
ERA5 ancillary images; temperatures K to C; `ea` from the mean dew point;
solar is the summed J m-2 divided by 1e6. -/
def era5Adapter (env : CalcsEnv α) (_ac : AdapterCalcs α) (assets : AdapterAssets α)
    (c : Era5Day α) (doy : α) (zw elev lat : Option α)
    (method : String) (rso_type : Option String) : Except RefetError (Daily α) :=
  let zw' := zw.getD 10
  let elev' := elev.getD assets.era5_elev
  let lat' := lat.getD assets.era5_lat
  dailyInit env (c.temp_max - 27315 / 100) (c.temp_min - 27315 / 100)
    (env.sat_vapor_pressure (c.dew_mean - 27315 / 100))
    (c.ssrd_sum / 1000000) c.wind_mean zw' elev' lat' doy method rso_type none

/-- `Daily.era5_land` (lines 1010-1104): as `era5` but with the ERA5-Land
ancillary images and the hourly solar band. -/
def era5LandAdapter (env : CalcsEnv α) (_ac : AdapterCalcs α) (assets : AdapterAssets α)
    (c : Era5Day α) (doy : α) (zw elev lat : Option α)
    (method : String) (rso_type : Option String) : Except RefetError (Daily α) :=
  let zw' := zw.getD 10
  let elev' := elev.getD assets.era5land_elev
  let lat' := lat.getD assets.era5land_lat
  dailyInit env (c.temp_max - 27315 / 100) (c.temp_min - 27315 / 100)
    (env.sat_vapor_pressure (c.dew_mean - 27315 / 100))
    (c.ssrd_sum / 1000000) c.wind_mean zw' elev' lat' doy method rso_type none

/-- `Daily.era5_land_daily` (lines 1106-1200): identical to `era5_land`
except that it selects the daily-sum solar band. -/
def era5LandDailyAdapter (env : CalcsEnv α) (_ac : AdapterCalcs α)
    (assets : AdapterAssets α) (c : Era5Day α) (doy : α) (zw elev lat : Option α)
    (method : String) (rso_type : Option String) : Except RefetError (Daily α) :=
  let zw' := zw.getD 10
  let elev' := elev.getD assets.era5land_elev
  let lat' := lat.getD assets.era5land_lat
  dailyInit env (c.temp_max - 27315 / 100) (c.temp_min - 27315 / 100)
    (env.sat_vapor_pressure (c.dew_mean - 27315 / 100))
    (c.ssrd_sum / 1000000) c.wind_mean zw' elev' lat' doy method rso_type none

/-- C9 amended: every source adapter substitutes a built-in default only for
the wind measurement height (10), elevation and latitude (its family's
ancillary images), each via the caller-omitted/`getD` pattern, while the
mandatory thermal, humidity, radiometric and wind inputs of the constructed
engine are exact unit conversions of the native dataset bands; the one
exception is the RTMA adapter's solar radiation, which falls back to the
concurrent-day GRIDMET product (or on request NLDAS) when omitted, passes
images and numbers through, and errors only on an unrecognized dataset-name
string. -/
theorem adapter_default_policy (env : CalcsEnv α) (ac : AdapterCalcs α)
    (assets : AdapterAssets α) (ds : RsDatasets α) :
    (∀ (img : GridmetImage α) (doy : α) (zw elev lat : Option α) (method : String)
      (rso_type : Option String) (d : Daily α),
      gridmetAdapter env ac assets img doy zw elev lat method rso_type = .ok d →
      d.zw = zw.getD 10 ∧ d.elev = elev.getD assets.gridmet_elev ∧
      d.lat = lat.getD assets.gridmet_lat * env.piDiv180 ∧
      d.tmax = img.tmmx - 27315 / 100 ∧ d.tmin = img.tmmn - 27315 / 100 ∧
      d.ea = ac.actual_vapor_pressure img.sph
        (env.air_pressure (elev.getD assets.gridmet_elev) method) ∧
      d.rs = img.srad * (864 / 10000) ∧ d.uz = img.vs) ∧
    (∀ (img : MacaImage α) (doy : α) (zw elev lat : Option α) (method : String)
      (rso_type : Option String) (d : Daily α),
      macaAdapter env ac assets img doy zw elev lat method rso_type = .ok d →
      d.zw = zw.getD 10 ∧ d.elev = elev.getD assets.gridmet_elev ∧
      d.lat = lat.getD assets.gridmet_lat * env.piDiv180 ∧
      d.tmax = img.tasmax - 27315 / 100 ∧ d.tmin = img.tasmin - 27315 / 100 ∧
      d.ea = ac.actual_vapor_pressure img.huss
        (env.air_pressure (elev.getD assets.gridmet_elev) method) ∧
      d.rs = img.rsds * (864 / 10000) ∧
      d.uz = env.sqrtF (img.uas ^ 2 + img.vas ^ 2)) ∧
    (∀ (c : NldasDay α) (doy : α) (zw elev lat : Option α) (method : String)
      (rso_type : Option String) (d : Daily α),
      nldasAdapter env ac assets c doy zw elev lat method rso_type = .ok d →
      d.zw = zw.getD 10 ∧ d.elev = elev.getD assets.nldas_elev ∧
      d.lat = lat.getD assets.nldas_lat * env.piDiv180 ∧
      d.tmax = c.temp_max ∧ d.tmin = c.temp_min ∧
      d.ea = ac.actual_vapor_pressure c.sph_mean
        (env.air_pressure (elev.getD assets.nldas_elev) method) ∧
      d.rs = c.sw_sum * (36 / 10000) ∧ d.uz = c.wind_mean) ∧
    (∀ (c : Cfsv2Day α) (doy : α) (zw elev lat : Option α) (method : String)
      (rso_type : Option String) (d : Daily α),
      cfsv2Adapter env ac assets c doy zw elev lat method rso_type = .ok d →
      d.zw = zw.getD 10 ∧ d.elev = elev.getD assets.cfsv2_elev ∧
      d.lat = lat.getD assets.cfsv2_lat * env.piDiv180 ∧
      d.tmax = c.tmax_max - 27315 / 100 ∧ d.tmin = c.tmin_min - 27315 / 100 ∧
      d.ea = ac.actual_vapor_pressure c.sph_mean
        (env.air_pressure (elev.getD assets.cfsv2_elev) method) ∧
      d.rs = c.sw_mean * (864 / 10000) ∧ d.uz = c.wind_mean) ∧
    (∀ (c : RtmaDay α) (doy : α) (rsa : RsArg α) (zw elev lat : Option α)
      (method : String) (rso_type : Option String) (d : Daily α),
      rtmaAdapter env ac assets ds c doy rsa zw elev lat method rso_type = .ok d →
      d.zw = zw.getD 10 ∧ d.elev = elev.getD assets.rtma_elev ∧
      d.lat = lat.getD assets.rtma_lat * env.piDiv180 ∧
      d.tmax = c.tmp_max ∧ d.tmin = c.tmp_min ∧
      d.ea = ac.actual_vapor_pressure c.sph_mean
        (env.air_pressure (elev.getD assets.rtma_elev) method) ∧
      d.uz = c.wind_mean ∧ rtmaRs ds rsa = .ok d.rs) ∧
    (∀ (c : RtmaDay α) (doy : α) (zw elev lat : Option α) (method : String)
      (rso_type : Option String) (d : Daily α),
      rtmaAdapter env ac assets ds c doy RsArg.omitted zw elev lat method rso_type
        = .ok d →
      d.rs = ds.gridmet_srad * (864 / 10000)) ∧
    (∀ (s : String) (c : RtmaDay α) (doy : α) (zw elev lat : Option α)
      (method : String) (rso_type : Option String),
      upper s ≠ "GRIDMET" → upper s ≠ "NLDAS" →
      rtmaAdapter env ac assets ds c doy (RsArg.txt s) zw elev lat method rso_type
        = .error (.valueError "Unsupported Rs input")) ∧
    (∀ (c : Era5Day α) (doy : α) (zw elev lat : Option α) (method : String)
      (rso_type : Option String) (d : Daily α),
      era5Adapter env ac assets c doy zw elev lat method rso_type = .ok d →
      d.zw = zw.getD 10 ∧ d.elev = elev.getD assets.era5_elev ∧
      d.lat = lat.getD assets.era5_lat * env.piDiv180 ∧
      d.tmax = c.temp_max - 27315 / 100 ∧ d.tmin = c.temp_min - 27315 / 100 ∧
      d.ea = env.sat_vapor_pressure (c.dew_mean - 27315 / 100) ∧
      d.rs = c.ssrd_sum / 1000000 ∧ d.uz = c.wind_mean) ∧
    (∀ (c : Era5Day α) (doy : α) (zw elev lat : Option α) (method : String)
      (rso_type : Option String) (d : Daily α),
      era5LandAdapter env ac assets c doy zw elev lat method rso_type = .ok d →
      d.zw = zw.getD 10 ∧ d.elev = elev.getD assets.era5land_elev ∧
      d.lat = lat.getD assets.era5land_lat * env.piDiv180 ∧
      d.tmax = c.temp_max - 27315 / 100 ∧ d.tmin = c.temp_min - 27315 / 100 ∧
      d.ea = env.sat_vapor_pressure (c.dew_mean - 27315 / 100) ∧
      d.rs = c.ssrd_sum / 1000000 ∧ d.uz = c.wind_mean) ∧
    (∀ (c : Era5Day α) (doy : α) (zw elev lat : Option α) (method : String)
      (rso_type : Option String) (d : Daily α),
      era5LandDailyAdapter env ac assets c doy zw elev lat method rso_type = .ok d →
      d.zw = zw.getD 10 ∧ d.elev = elev.getD assets.era5land_elev ∧
      d.lat = lat.getD assets.era5land_lat * env.piDiv180 ∧
      d.tmax = c.temp_max - 27315 / 100 ∧ d.tmin = c.temp_min - 27315 / 100 ∧
      d.ea = env.sat_vapor_pressure (c.dew_mean - 27315 / 100) ∧
      d.rs = c.ssrd_sum / 1000000 ∧ d.uz = c.wind_mean) ∧
    rtmaRs ds RsArg.omitted = .ok (ds.gridmet_srad * (864 / 10000)) ∧
    (∀ v : α, rtmaRs ds (RsArg.img v) = .ok v) ∧
    (∀ v : α, rtmaRs ds (RsArg.num v) = .ok v) ∧
    (∀ s : String, upper s = "GRIDMET" →
      rtmaRs ds (RsArg.txt s) = .ok (ds.gridmet_srad * (864 / 10000))) ∧
    (∀ s : String, upper s = "NLDAS" →
      rtmaRs ds (RsArg.txt s) = .ok (ds.nldas_sw_sum * (36 / 10000))) := by
  refine ⟨?_, ?_, ?_, ?_, ?_, ?_, ?_, ?_, ?_, ?_, rfl, fun v => rfl, fun v => rfl,
    fun s hs => ?_, fun s hs => ?_⟩
  · intro img doy zw elev lat method rso_type d h
    dsimp only [gridmetAdapter] at h
    obtain rfl := dailyInit_ok h
    exact ⟨rfl, rfl, rfl, rfl, rfl, rfl, rfl, rfl⟩
  · intro img doy zw elev lat method rso_type d h
    dsimp only [macaAdapter] at h
    obtain rfl := dailyInit_ok h
    exact ⟨rfl, rfl, rfl, rfl, rfl, rfl, rfl, rfl⟩
  · intro c doy zw elev lat method rso_type d h
    dsimp only [nldasAdapter] at h
    obtain rfl := dailyInit_ok h
    exact ⟨rfl, rfl, rfl, rfl, rfl, rfl, rfl, rfl⟩
  · intro c doy zw elev lat method rso_type d h
    dsimp only [cfsv2Adapter] at h
    obtain rfl := dailyInit_ok h
    exact ⟨rfl, rfl, rfl, rfl, rfl, rfl, rfl, rfl⟩
  · intro c doy rsa zw elev lat method rso_type d h
    dsimp only [rtmaAdapter] at h
    cases hr : rtmaRs ds rsa with
    | error e => rw [hr] at h; exact Except.noConfusion h
    | ok rsv =>
      rw [hr] at h
      obtain rfl := dailyInit_ok h
      exact ⟨rfl, rfl, rfl, rfl, rfl, rfl, rfl, rfl⟩
  · intro c doy zw elev lat method rso_type d h
    dsimp only [rtmaAdapter, rtmaRs] at h
    obtain rfl := dailyInit_ok h
    rfl
  · intro s c doy zw elev lat method rso_type h1 h2
    have hs : rtmaRs ds (RsArg.txt s) = .error (.valueError "Unsupported Rs input") := by
      simp only [rtmaRs]; rw [if_neg h1, if_neg h2]
    dsimp only [rtmaAdapter]
    rw [hs]
  · intro c doy zw elev lat method rso_type d h
    dsimp only [era5Adapter] at h
    obtain rfl := dailyInit_ok h
    exact ⟨rfl, rfl, rfl, rfl, rfl, rfl, rfl, rfl⟩
  · intro c doy zw elev lat method rso_type d h
    dsimp only [era5LandAdapter] at h
    obtain rfl := dailyInit_ok h
    exact ⟨rfl, rfl, rfl, rfl, rfl, rfl, rfl, rfl⟩
  · intro c doy zw elev lat method rso_type d h
    dsimp only [era5LandDailyAdapter] at h
    obtain rfl := dailyInit_ok h
    exact ⟨rfl, rfl, rfl, rfl, rfl, rfl, rfl, rfl⟩
  · simp only [rtmaRs]; rw [if_pos hs]
  · simp only [rtmaRs]
    rw [if_neg (fun hx => absurd (hx.symm.trans hs) (by decide)), if_pos hs]

/-!
Concrete adapter fixtures over `ℚ` for the C9 witness.
-/

def acQ : AdapterCalcs ℚ := ⟨fun q pair => q + pair⟩

def assetsQ : AdapterAssets ℚ := ⟨101, 11, 102, 12, 103, 13, 104, 14, 105, 15, 106, 16⟩

/-- Extracts the engine of a successful adapter call (the fallback is never
used by the fixtures below, whose calls all succeed). -/
def getOk (x : Except RefetError (Daily ℚ)) (dflt : Daily ℚ) : Daily ℚ :=
  match x with
  | .ok d => d
  | .error _ => dflt

def imgGQ : GridmetImage ℚ := ⟨300, 280, 3, 200, 4⟩

def imgMQ : MacaImage ℚ := ⟨300, 280, 3, 200, 4, 5⟩

def dayNQ : NldasDay ℚ := ⟨30, 15, 3, 200, 4⟩

def dayCQ : Cfsv2Day ℚ := ⟨300, 280, 3, 200, 4⟩

def dayRQ : RtmaDay ℚ := ⟨30, 15, 3, 4⟩

def dayEQ : Era5Day ℚ := ⟨300, 280, 285, 2000000, 4⟩

def dGm : Daily ℚ :=
  getOk (gridmetAdapter envW acQ assetsQ imgGQ 6 none none none "asce" none) dW

def dGm2 : Daily ℚ :=
  getOk (gridmetAdapter envW acQ assetsQ imgGQ 6 (some 3) (some 4) (some 5) "asce" none) dW

def dMa : Daily ℚ :=
  getOk (macaAdapter envW acQ assetsQ imgMQ 6 none none none "asce" none) dW

def dNl : Daily ℚ :=
  getOk (nldasAdapter envW acQ assetsQ dayNQ 6 none none none "asce" none) dW

def dCf : Daily ℚ :=
  getOk (cfsv2Adapter envW acQ assetsQ dayCQ 6 none none none "asce" none) dW

def dRt : Daily ℚ :=
  getOk (rtmaAdapter envW acQ assetsQ dsW dayRQ 6 RsArg.omitted none none none
    "asce" none) dW

def dE5 : Daily ℚ :=
  getOk (era5Adapter envW acQ assetsQ dayEQ 6 none none none "asce" none) dW

def dEl : Daily ℚ :=
  getOk (era5LandAdapter envW acQ assetsQ dayEQ 6 none none none "asce" none) dW

def dEld : Daily ℚ :=
  getOk (era5LandDailyAdapter envW acQ assetsQ dayEQ 6 none none none "asce" none) dW

/-- C9 amended witness: all eight adapters at concrete inputs with the
optional arguments omitted (defaults taken), gridmet also with the optional
arguments supplied (caller values taken), RTMA's omitted solar radiation
falling back to GRIDMET, and an unrecognized solar dataset name failing. -/
theorem adapter_default_policy_witness :
    (dGm.zw = 10 ∧ dGm.elev = assetsQ.gridmet_elev ∧
      dGm.lat = assetsQ.gridmet_lat * envW.piDiv180 ∧
      dGm.rs = imgGQ.srad * (864 / 10000)) ∧
    (dGm2.zw = 3 ∧ dGm2.elev = 4 ∧ dGm2.lat = 5 * envW.piDiv180) ∧
    (dMa.zw = 10 ∧ dMa.elev = assetsQ.gridmet_elev ∧
      dMa.lat = assetsQ.gridmet_lat * envW.piDiv180) ∧
    (dNl.zw = 10 ∧ dNl.elev = assetsQ.nldas_elev ∧
      dNl.lat = assetsQ.nldas_lat * envW.piDiv180) ∧
    (dCf.zw = 10 ∧ dCf.elev = assetsQ.cfsv2_elev ∧
      dCf.lat = assetsQ.cfsv2_lat * envW.piDiv180) ∧
    (dRt.zw = 10 ∧ dRt.elev = assetsQ.rtma_elev ∧
      dRt.lat = assetsQ.rtma_lat * envW.piDiv180 ∧
      dRt.rs = dsW.gridmet_srad * (864 / 10000)) ∧
    (dE5.zw = 10 ∧ dE5.elev = assetsQ.era5_elev ∧
      dE5.lat = assetsQ.era5_lat * envW.piDiv180) ∧
    (dEl.zw = 10 ∧ dEl.elev = assetsQ.era5land_elev ∧
      dEl.lat = assetsQ.era5land_lat * envW.piDiv180) ∧
    (dEld.zw = 10 ∧ dEld.elev = assetsQ.era5land_elev ∧
      dEld.lat = assetsQ.era5land_lat * envW.piDiv180) ∧
    rtmaAdapter envW acQ assetsQ dsW dayRQ 6 (RsArg.txt "foo") none none none
      "asce" none = .error (.valueError "Unsupported Rs input") := by
  obtain ⟨tg, tm, tn, tc, tr, tro, tru, te5, tel, teld, _, _, _, _, _⟩ :=
    adapter_default_policy envW acQ assetsQ dsW
  have hg := tg imgGQ 6 none none none "asce" none dGm rfl
  have hg2 := tg imgGQ 6 (some 3) (some 4) (some 5) "asce" none dGm2 rfl
  have hm := tm imgMQ 6 none none none "asce" none dMa rfl
  have hn := tn dayNQ 6 none none none "asce" none dNl rfl
  have hc := tc dayCQ 6 none none none "asce" none dCf rfl
  have hr := tr dayRQ 6 RsArg.omitted none none none "asce" none dRt rfl
  have hro := tro dayRQ 6 none none none "asce" none dRt rfl
  have he5 := te5 dayEQ 6 none none none "asce" none dE5 rfl
  have hel := tel dayEQ 6 none none none "asce" none dEl rfl
  have held := teld dayEQ 6 none none none "asce" none dEld rfl
  exact ⟨⟨hg.1, hg.2.1, hg.2.2.1, hg.2.2.2.2.2.2.1⟩,
    ⟨hg2.1, hg2.2.1, hg2.2.2.1⟩,
    ⟨hm.1, hm.2.1, hm.2.2.1⟩,
    ⟨hn.1, hn.2.1, hn.2.2.1⟩,
    ⟨hc.1, hc.2.1, hc.2.2.1⟩,
    ⟨hr.1, hr.2.1, hr.2.2.1, hro⟩,
    ⟨he5.1, he5.2.1, he5.2.2.1⟩,
    ⟨hel.1, hel.2.1, hel.2.2.1⟩,
    ⟨held.1, held.2.1, held.2.2.1⟩,
    tru "foo" dayRQ 6 none none none "asce" none (by decide) (by decide)⟩

end RefetGee
